import Mathlib

/-!
Verification of the dump-capture orchestration tool (`entry.py`) against its
natural-language specification.  Each section below is a shallow embedding of
one part of the source program as executable Lean definitions, followed by
theorems settling the specification claims about that part.
-/

/-! ## Identity Inspector (entry.py lines 127-157) -/

/-- Numeric identity reported by the container runtime, as found under
`containerStatuses[i].user.linux` in the structured pod description.  Each
field is `none` when the corresponding key is missing. -/
structure LinuxUser where
  uid : Option Int
  gid : Option Int
deriving DecidableEq

/-- One entry of `status.containerStatuses`.  `userLinux = some u` models a
status whose `user` object has a `linux` key. -/
structure ContainerStatus where
  name : String
  userLinux : Option LinuxUser
deriving DecidableEq

/-- A `securityContext` object (container- or pod-level); absent keys are
`none`.  A missing `securityContext` object altogether is modelled by the
all-`none` record, matching `container.get("securityContext", {})`. -/
structure SecurityContext where
  runAsUser : Option Int
  runAsGroup : Option Int
deriving DecidableEq

/-- One entry of `spec.containers`, restricted to the fields the identity
code reads. -/
structure Container where
  name : String
  securityContext : SecurityContext
deriving DecidableEq

/-- The parts of the structured pod description read by the identity code. -/
structure PodData where
  containerStatuses : List ContainerStatus
  containers : List Container
  podSecurityContext : SecurityContext
deriving DecidableEq

/-- Python `a or b` on optional integers: `a` is kept only when it is present
and truthy; both `None` and `0` are falsy and fall through to `b`. -/
def pyOrInt (a b : Option Int) : Option Int :=
  match a with
  | some v => if v = 0 then b else some v
  | none => b

/-- First phase of the identity code (entry.py 128-140): scan
`containerStatuses` for the first entry named `cname` and read
`user.linux.uid` / `user.linux.gid` from it; both stay `None` when the entry
or its `linux` object is missing. -/
def runtimeIds (pd : PodData) (cname : String) : Option Int × Option Int :=
  match pd.containerStatuses.find? (fun cs => cs.name = cname) with
  | some cs =>
    match cs.userLinux with
    | some lu => (lu.uid, lu.gid)
    | none => (none, none)
  | none => (none, none)

/-- Full uid/gid resolution (entry.py 127-157): runtime status first, then,
for each field still `None`, the fallback
`securityContext.get("runAsUser") or pod_security_context.get("runAsUser")`
(and likewise for the group) using Python `or`, under which a zero value
falls through to the pod level. -/
def resolveIdentity (pd : PodData) (cname : String) : Option Int × Option Int :=
  let ids := runtimeIds pd cname
  let uid := ids.1
  let gid := ids.2
  if uid = none ∨ gid = none then
    match pd.containers.find? (fun c => c.name = cname) with
    | some c =>
      (if uid = none then
        pyOrInt c.securityContext.runAsUser pd.podSecurityContext.runAsUser
       else uid,
       if gid = none then
        pyOrInt c.securityContext.runAsGroup pd.podSecurityContext.runAsGroup
       else gid)
    | none => (uid, gid)
  else (uid, gid)

/-! ## Strategy Selector and Script Composer (entry.py lines 176-199) -/

/-- The two capture strategies accepted by the command line. -/
inductive Strategy where
  | sameContainer
  | debugContainer
deriving DecidableEq

/-- The literal command-line spelling of each strategy. -/
def strategyStr : Strategy → String
  | .sameContainer => "same-container"
  | .debugContainer => "debug-container"

/-- `dump_dir` as computed at entry.py 180-183. -/
def dump_dir (strategy : Strategy) (dump_pid : String) : String :=
  match strategy with
  | .sameContainer => "/tmp/dumps"
  | .debugContainer => "/proc/" ++ dump_pid ++ "/root/tmp/dumps"

/-- The composed execution payload (entry.py 193-199), a direct transcription
of the f-string: four assignment lines, a blank line, the capture-script
body, and a final newline — for both strategies. -/
def script_content (strategy : Strategy) (dump_type dump_pid remote_script : String) : String :=
  "dump_type=\"" ++ dump_type ++ "\"\n"
    ++ "dump_pid=\"" ++ dump_pid ++ "\"\n"
    ++ "dump_dir=\"" ++ dump_dir strategy dump_pid ++ "\"\n"
    ++ "strategy=\"" ++ strategyStr strategy ++ "\"\n"
    ++ "\n" ++ remote_script ++ "\n"

/-- Payload shape asserted by the specification for the in-place strategy:
exactly three assignment lines followed byte-for-byte by the body.  This
definition is written from the specification text, for comparison against
`script_content`. -/
def spec_inplace_payload (dump_type dump_pid remote_script : String) : String :=
  "dump_type=\"" ++ dump_type ++ "\"\n"
    ++ "dump_pid=\"" ++ dump_pid ++ "\"\n"
    ++ "dump_dir=\"" ++ dump_dir .sameContainer dump_pid ++ "\"\n"
    ++ remote_script

/-- The four-line preamble of the amended claim: the `dump_type`, `dump_pid`,
`dump_dir` and `strategy` assignment lines in that fixed order. -/
def spec_preamble (strategy : Strategy) (dump_type dump_pid : String) : String :=
  "dump_type=\"" ++ dump_type ++ "\"\n"
    ++ "dump_pid=\"" ++ dump_pid ++ "\"\n"
    ++ "dump_dir=\"" ++ dump_dir strategy dump_pid ++ "\"\n"
    ++ "strategy=\"" ++ strategyStr strategy ++ "\"\n"

/-! ## Target Resolver (entry.py lines 52-90) -/

/-- Behaviour of the selector query
`kubectl get pods -l SEL -o jsonpath=...items[0]...`: the first pod name in
listing order when at least one pod matches.  On zero matches real kubectl
either fails with a jsonpath out-of-bounds error (non-zero exit, modelled by
`emptyFails = true`) or prints nothing; both observed behaviours are
covered. -/
def kubectl_jsonpath_first (pods : List String) (emptyFails : Bool) : Except String String :=
  match pods with
  | [] => if emptyFails then .error "array index out of bounds" else .ok ""
  | p :: _ => .ok p

/-- Python `str.strip()`: leading and trailing whitespace removed. -/
def pyStrip (s : String) : String :=
  ⟨((s.toList.dropWhile Char.isWhitespace).reverse.dropWhile Char.isWhitespace).reverse⟩

/-- Selector branch of pod resolution (entry.py 52-82): a failed command or
an empty stripped name exits 1 with a diagnostic; otherwise the stripped
first name is the resolved pod.  Errors carry (exit code, message). -/
def resolveSelectorPod (selector ns : String) (cmd : Except String String) : Except (Nat × String) String :=
  match cmd with
  | .error stderr => .error (1, "Error: Failed to find pod with selector: " ++ stderr)
  | .ok out =>
    let kube_pod := pyStrip out
    if kube_pod = "" then
      .error (1, "Error: No pods found with selector \x27" ++ selector
        ++ "\x27 in namespace \x27" ++ ns ++ "\x27")
    else .ok kube_pod

/-! ## Execution Launcher and process exit codes -/

/-- Common launch-failure pattern (entry.py 210-215 for `kubectl exec`,
268-273 for `kubectl debug`): a non-zero return code of the launch command
becomes the process exit code (`some rc`); zero lets the run continue
(`none`). -/
def launch_exit (returncode : Int) : Option Int :=
  if returncode = 0 then none else some returncode

/-- Loading `remote.sh` (entry.py 185-190): a missing file (`none`) exits 1. -/
def load_remote_script (contents : Option String) : Except Nat String :=
  match contents with
  | none => .error 1
  | some s => .ok s

/-- Usage check (entry.py 83-90): neither a pod argument nor a selector is a
usage error exiting 1. -/
def usage_exit (selector pod : Option String) : Option Nat :=
  if selector = none ∧ pod = none then some 1 else none

/-- Parsing the structured pod description (entry.py 100-108): a JSON decode
failure (`none`) exits 1. -/
def parse_pod_data (parsed : Option PodData) : Except Nat PodData :=
  match parsed with
  | none => .error 1
  | some pd => .ok pd

/-! ## Side-car helper creation (entry.py 224-255) -/

/-- The `kubectl debug` argument list, including the identity override
(`--profile restricted --custom FILE`) added iff at least one of uid/gid is
not `None` (entry.py 238-252), and the trailing `-- bash`. -/
def debug_cmd (ns pod containerName debugImage customFileName : String)
    (uid gid : Option Int) : List String :=
  let base := ["kubectl", "debug", "-n", ns, pod,
    "--image=" ++ debugImage, "--target=" ++ containerName, "--share-processes", "-i"]
  let cmd := if uid ≠ none ∨ gid ≠ none then
      base ++ ["--profile", "restricted", "--custom", customFileName]
    else base
  cmd ++ ["--", "bash"]

/-- Image of an optional integer under Python `json.dump`: `None` becomes
`null`. -/
def jsonOfOptInt : Option Int → String
  | none => "null"
  | some n => toString n

/-- The serialized `custom_spec` descriptor (entry.py 239-249): `json.dump`
of the dict with the two keys `runAsUser` and `runAsGroup`, in insertion
order, with `None` serialized as `null`. -/
def custom_spec_json (uid gid : Option Int) : String :=
  "\x7b\"securityContext\": \x7b\"runAsUser\": " ++ jsonOfOptInt uid
    ++ ", \"runAsGroup\": " ++ jsonOfOptInt gid ++ "\x7d\x7d"

/-! ## Completion Watcher (entry.py 166-170 and 285-322) -/

/-- One entry of `status.ephemeralContainerStatuses`: its name and the keys
of its `state` object. -/
structure ECStatus where
  name : String
  stateKeys : List String
deriving DecidableEq

/-- One poll body (entry.py 304-316): true iff some status entry whose name
is not in the pre-launch list reports a `terminated` state. -/
def hasTerminated (existing : List String) (statuses : List ECStatus) : Bool :=
  statuses.any (fun ec => !(existing.contains ec.name) && ec.stateKeys.contains "terminated")

/-- The poll loop (entry.py 285-322) run against a sequence of pod
descriptions, one per poll: the result is the index of the poll on which the
loop breaks out (equal to the number of one-second sleeps taken before it),
or `none` when every observed poll is still waiting — the loop has no
timeout and simply keeps polling. -/
def watchLoop (existing : List String) : List (List ECStatus) → Option Nat
  | [] => none
  | p :: rest =>
    if hasTerminated existing p then some 0
    else
      match watchLoop existing rest with
      | some k => some (k + 1)
      | none => none

/-- The poll sequence of the specification scenario: helper `debugger-1`
absent, then running, then terminated. -/
def scenarioPolls : List (List ECStatus) :=
  [[], [⟨"debugger-1", ["running"]⟩], [⟨"debugger-1", ["terminated"]⟩]]

/-! ## Chunked File Retriever (entry.py 400-459) -/

/-- One remote chunk read: the offset and requested byte count of the `dd`
command, the number of bytes actually received, and the cumulative progress
percentage printed after writing the chunk. -/
structure ChunkRead where
  offset : Nat
  bytesToRead : Nat
  received : Nat
  progressPct : Nat
deriving DecidableEq

/-- Result of one run of `kubectl_chunked_cp`: either `sys.exit code`, or a
normal return carrying the chunk reads performed, the final local file size,
and whether the size-mismatch warning was printed. -/
inductive ChunkOutcome where
  | exited (code : Int)
  | done (reads : List ChunkRead) (localSize : Nat) (warning : Bool)
deriving DecidableEq

/-- Bytes produced by
`dd if=FILE bs=1M skip=OFFSET count=COUNT iflag=skip_bytes,count_bytes`:
up to `count` bytes of the remote file starting at byte `offset` (fewer when
the file ends first; the base64 encoding and decoding cancel out and are not
modelled). -/
def dd_read (file : List Nat) (offset count : Nat) : List Nat :=
  (file.drop offset).take count

/-- The transfer loop (entry.py 417-444).  `fuel` bounds how many iterations
we observe; `none` means the loop was still running after `fuel` iterations.
Each iteration requests `min chunkSize (totalSize - offset)` bytes at
`offset`, writes what arrived, advances `offset` by the number of bytes
received, and prints the progress percentage `100 * offset / totalSize`. -/
def chunkedLoop (file : List Nat) (totalSize chunkSize : Nat) :
    Nat → Nat → List ChunkRead → Option (List ChunkRead × Nat)
  | 0, offset, acc => if offset < totalSize then none else some (acc, offset)
  | fuel + 1, offset, acc =>
    if offset < totalSize then
      let bytesToRead := min chunkSize (totalSize - offset)
      let chunkData := dd_read file offset bytesToRead
      let newOffset := offset + chunkData.length
      chunkedLoop file totalSize chunkSize fuel newOffset
        (acc ++ [⟨offset, bytesToRead, chunkData.length, 100 * newOffset / totalSize⟩])
    else some (acc, offset)

/-- `kubectl_chunked_cp` (entry.py 400-459).  `probe` is the outcome of the
size probe: `.error rc` models a `CalledProcessError` whose handler runs
`sys.exit(1)` regardless of the underlying return code `rc`.  On a normal
loop exit the local file holds exactly the bytes written by the loop, and
the warning flag is set iff the local size differs from the probed size. -/
def kubectl_chunked_cp (probe : Except Int Nat) (file : List Nat) (chunkSize fuel : Nat) :
    Option ChunkOutcome :=
  match probe with
  | .error _ => some (.exited 1)
  | .ok total_size =>
    match chunkedLoop file total_size chunkSize fuel 0 [] with
    | none => none
    | some (reads, offset) => some (.done reads offset (decide (offset ≠ total_size)))

/-! ## Theorems -/

/-- Claim C9 (confirmed): when the probed remote size is 0, the transfer
loop performs no remote chunk reads (the read list is empty, so the
percentage computation dividing by the total size is never evaluated), the
local file is created empty, and the run reports success with no warning —
for every remote file, chunk size and observation bound. -/
theorem c9_zero_size_no_reads (file : List Nat) (chunkSize fuel : Nat) :
    kubectl_chunked_cp (.ok 0) file chunkSize fuel = some (.done [] 0 false) := by
  cases fuel <;> simp [kubectl_chunked_cp, chunkedLoop]

/-- Witness for C9 at a concrete input. -/
theorem c9_zero_size_no_reads_witness :
    kubectl_chunked_cp (.ok 0) [7, 7, 7] 5 3 = some (.done [] 0 false) :=
  c9_zero_size_no_reads [7, 7, 7] 5 3

/-- Claim C2 counterexample: for the in-place (same-container) strategy the
composed payload is not three assignment lines followed byte-for-byte by the
body — the code emits the `strategy` assignment line for both strategies. -/
theorem c2_counterexample_inplace_three_lines :
    script_content .sameContainer "mini" "1" "BODY" ≠ spec_inplace_payload "mini" "1" "BODY" := by
  decide

/-- Claim C2 (amended): for BOTH strategies the composed payload consists of
exactly four assignment lines (`dump_type`, `dump_pid`, `dump_dir`,
`strategy`) in that fixed order, then a blank separator line, then the
unmodified capture-script body, then a final newline. -/
theorem c2_amended_payload_layout (strategy : Strategy) (dump_type dump_pid remote_script : String) :
    script_content strategy dump_type dump_pid remote_script =
      spec_preamble strategy dump_type dump_pid ++ "\n" ++ remote_script ++ "\n" := by
  simp [script_content, spec_preamble, String.append_assoc]

/-- Claim C8 (confirmed): the helper-creation command carries the identity
override (`--profile restricted --custom FILE`) iff at least one of uid/gid
was resolved; with both unresolved the command is exactly the base argument
list with no override of any kind. -/
theorem c8_identity_override_iff_resolved (ns pod containerName debugImage customFileName : String)
    (uid gid : Option Int) :
    (uid = none ∧ gid = none →
      debug_cmd ns pod containerName debugImage customFileName uid gid =
        ["kubectl", "debug", "-n", ns, pod, "--image=" ++ debugImage,
         "--target=" ++ containerName, "--share-processes", "-i", "--", "bash"])
    ∧ (uid ≠ none ∨ gid ≠ none →
      debug_cmd ns pod containerName debugImage customFileName uid gid =
        ["kubectl", "debug", "-n", ns, pod, "--image=" ++ debugImage,
         "--target=" ++ containerName, "--share-processes", "-i",
         "--profile", "restricted", "--custom", customFileName, "--", "bash"]) := by
  constructor
  · rintro ⟨h1, h2⟩
    subst h1; subst h2
    simp [debug_cmd]
  · intro h
    simp [debug_cmd, h]

/-- Witness for C8 at concrete inputs: one fully-unresolved identity, one
identity with only a uid. -/
theorem c8_identity_override_iff_resolved_witness :
    debug_cmd "default" "pod-a" "app" "img" "/tmp/custom.json" none none =
      ["kubectl", "debug", "-n", "default", "pod-a", "--image=" ++ "img",
       "--target=" ++ "app", "--share-processes", "-i", "--", "bash"]
    ∧ debug_cmd "default" "pod-a" "app" "img" "/tmp/custom.json" (some 1000) none =
      ["kubectl", "debug", "-n", "default", "pod-a", "--image=" ++ "img",
       "--target=" ++ "app", "--share-processes", "-i",
       "--profile", "restricted", "--custom", "/tmp/custom.json", "--", "bash"] :=
  ⟨(c8_identity_override_iff_resolved "default" "pod-a" "app" "img" "/tmp/custom.json" none none).1
      ⟨rfl, rfl⟩,
   (c8_identity_override_iff_resolved "default" "pod-a" "app" "img" "/tmp/custom.json"
      (some 1000) none).2 (Or.inl (by decide))⟩

/-- Claim C10 (confirmed): when exactly one of uid and gid is resolved, the
serialized identity-override descriptor contains both the `runAsUser` and the
`runAsGroup` key, the unresolved one bound to JSON `null` rather than
omitted. -/
theorem c10_override_null_serialization (uid gid : Option Int) (u g : Int) :
    (uid = some u → gid = none →
      custom_spec_json uid gid =
        "\x7b\"securityContext\": \x7b\"runAsUser\": " ++ toString u
          ++ ", \"runAsGroup\": null\x7d\x7d")
    ∧ (uid = none → gid = some g →
      custom_spec_json uid gid =
        "\x7b\"securityContext\": \x7b\"runAsUser\": null, \"runAsGroup\": "
          ++ toString g ++ "\x7d\x7d") := by
  constructor
  · rintro rfl rfl
    simp only [custom_spec_json, jsonOfOptInt, String.append_assoc]
    rfl
  · rintro rfl rfl
    simp only [custom_spec_json, jsonOfOptInt, String.append_assoc]
    rfl

/-- Witness for C10 at concrete inputs, one per direction. -/
theorem c10_override_null_serialization_witness :
    custom_spec_json (some 1000) none =
      "\x7b\"securityContext\": \x7b\"runAsUser\": " ++ toString (1000 : Int)
        ++ ", \"runAsGroup\": null\x7d\x7d"
    ∧ custom_spec_json none (some 2000) =
      "\x7b\"securityContext\": \x7b\"runAsUser\": null, \"runAsGroup\": "
        ++ toString (2000 : Int) ++ "\x7d\x7d" :=
  ⟨(c10_override_null_serialization (some 1000) none 1000 0).1 rfl rfl,
   (c10_override_null_serialization none (some 2000) 0 2000).2 rfl rfl⟩

/-- Claim C3 counterexample: runtime status supplies uid 1000 but no gid,
and the container securityContext supplies gid 0 — yet the resolved gid is
2000, taken from the pod-level securityContext, because Python `or` treats
the container-level 0 as falsy.  The claimed priority order fails. -/
theorem c3_counterexample_zero_gid :
    resolveIdentity
        ⟨[⟨"app", some ⟨some 1000, none⟩⟩], [⟨"app", ⟨none, some 0⟩⟩], ⟨none, some 2000⟩⟩ "app"
      = (some 1000, some 2000)
    ∧ (some 2000 : Option Int) ≠ some 0 := by
  decide

/-- Claim C3 (amended): the priority order runtime status, container
securityContext, pod securityContext holds with uid and gid resolved
independently, provided the static value supplied by the container
securityContext is nonzero (a zero there is treated as absent by Python `or`
and falls through); in particular, when runtime status supplies uid but not
gid and the container securityContext supplies a nonzero gid, the resolved
identity takes uid from runtime status and gid from the container
securityContext.  Resolution is deterministic, being a pure function of the
description. -/
theorem c3_amended_priority_resolution (pd : PodData) (cname : String) (u g : Int)
    (c : Container)
    (hrt : runtimeIds pd cname = (some u, none))
    (hc : pd.containers.find? (fun c2 => c2.name = cname) = some c)
    (hg : c.securityContext.runAsGroup = some g) (hgnz : g ≠ 0) :
    resolveIdentity pd cname = (some u, some g)
    ∧ resolveIdentity pd cname = resolveIdentity pd cname := by
  refine ⟨?_, rfl⟩
  unfold resolveIdentity
  rw [hrt]
  simp [hc, pyOrInt, hg, hgnz]

/-- Witness for C3 (amended) at a concrete description: runtime uid 1000,
container-level gid 5, nothing at pod level. -/
theorem c3_amended_priority_resolution_witness :
    resolveIdentity
        ⟨[⟨"app", some ⟨some 1000, none⟩⟩], [⟨"app", ⟨none, some 5⟩⟩], ⟨none, none⟩⟩ "app"
      = (some 1000, some 5) :=
  (c3_amended_priority_resolution
      ⟨[⟨"app", some ⟨some 1000, none⟩⟩], [⟨"app", ⟨none, some 5⟩⟩], ⟨none, none⟩⟩
      "app" 1000 5 ⟨"app", ⟨none, some 5⟩⟩ rfl rfl rfl (by decide)).1

/-- Claim C6 (confirmed): with a label selector, zero matching pods is a
fatal error exiting 1 (under either observed kubectl behaviour on an empty
listing; when the listing command itself succeeds with empty output the
diagnostic names the selector), and one or more matching pods
deterministically resolve to the first name in listing order. -/
theorem c6_selector_resolution (selector ns : String) (pods : List String) (emptyFails : Bool) :
    (pods = [] → emptyFails = false →
      resolveSelectorPod selector ns (kubectl_jsonpath_first pods emptyFails)
        = .error (1, "Error: No pods found with selector \x27" ++ selector
            ++ "\x27 in namespace \x27" ++ ns ++ "\x27"))
    ∧ (pods = [] → emptyFails = true →
      resolveSelectorPod selector ns (kubectl_jsonpath_first pods emptyFails)
        = .error (1, "Error: Failed to find pod with selector: array index out of bounds"))
    ∧ (∀ p rest, pods = p :: rest → pyStrip p = p → p ≠ "" →
      resolveSelectorPod selector ns (kubectl_jsonpath_first pods emptyFails) = .ok p) := by
  refine ⟨?_, ?_, ?_⟩
  · rintro rfl rfl
    simp [kubectl_jsonpath_first, resolveSelectorPod, pyStrip]
  · rintro rfl rfl
    simp [kubectl_jsonpath_first, resolveSelectorPod]
  · rintro p rest rfl htrim hne
    simp [kubectl_jsonpath_first, resolveSelectorPod, htrim, hne]

/-- Witness for C6 at concrete inputs: an empty listing and a two-pod
listing. -/
theorem c6_selector_resolution_witness :
    resolveSelectorPod "app=sample" "default" (kubectl_jsonpath_first [] false)
      = .error (1, "Error: No pods found with selector \x27" ++ "app=sample"
          ++ "\x27 in namespace \x27" ++ "default" ++ "\x27")
    ∧ resolveSelectorPod "app=sample" "default" (kubectl_jsonpath_first ["pod-a", "pod-b"] true)
      = .ok "pod-a" :=
  ⟨(c6_selector_resolution "app=sample" "default" [] false).1 rfl rfl,
   (c6_selector_resolution "app=sample" "default" ["pod-a", "pod-b"] true).2.2
      "pod-a" ["pod-b"] rfl (by decide) (by decide)⟩

/-- The poll loop is first-match detection: it returns the index of the
first poll on which a newly-appearing helper is observed terminated. -/
theorem watchLoop_eq_findIdx (existing : List String) (polls : List (List ECStatus)) :
    watchLoop existing polls = polls.findIdx? (hasTerminated existing) := by
  induction polls with
  | nil => rfl
  | cons p rest ih =>
    rw [List.findIdx?_cons]
    by_cases h : hasTerminated existing p
    · simp [watchLoop, h]
    · simp only [watchLoop, h, Bool.false_eq_true, if_false]
      rw [List.findIdx?_succ, ← ih]
      cases watchLoop existing rest <;> rfl

/-- Claim C5 (confirmed): the completion watcher reaches DONE (breaks out of
the loop) exactly on the first poll in which some ephemeral-container status
whose name is not in the pre-launch set reports a terminated state, and
never earlier; every earlier poll leaves it waiting (one sleep per such
poll, so a result of `some k` means `k` sleeps were taken); and the loop has
no timeout — it only ends on such a poll, never by exhausting the observed
sequence.  The specification scenario (helper `debugger-1` absent, then
running, then terminated) transitions exactly on the third poll. -/
theorem c5_watcher_first_terminated_poll (existing : List String)
    (polls : List (List ECStatus)) (k : Nat) :
    (watchLoop existing polls = some k ↔
      ∃ h : k < polls.length, hasTerminated existing polls[k] = true ∧
        ∀ j (hj : j < k), ¬ hasTerminated existing polls[j] = true)
    ∧ (watchLoop existing polls = none ↔
      ∀ p ∈ polls, hasTerminated existing p = false)
    ∧ watchLoop [] scenarioPolls = some 2 := by
  rw [watchLoop_eq_findIdx existing polls]
  refine ⟨List.findIdx?_eq_some_iff_getElem, List.findIdx?_eq_none_iff, ?_⟩
  decide

/-- Witness for C5: the scenario fact extracted through the theorem. -/
theorem c5_watcher_first_terminated_poll_witness :
    watchLoop [] scenarioPolls = some 2 :=
  (c5_watcher_first_terminated_poll [] scenarioPolls 2).2.2

/-- Claim C1 (confirmed): with a probed remote size of 25 MiB (26214400
bytes) and the default 10 MiB chunk size, and every remote command
succeeding (the remote file really has the probed size), the transfer
performs exactly three remote reads, of 10 MiB, 10 MiB and 5 MiB, at offsets
0, 10 MiB and 20 MiB, reporting cumulative progress 40%, 80% and 100% after
the respective chunks, and finishes with no size-mismatch warning. -/
theorem c1_chunked_three_reads_progress (file : List Nat) (hfile : file.length = 26214400) :
    kubectl_chunked_cp (.ok 26214400) file 10485760 4 =
      some (.done
        [⟨0, 10485760, 10485760, 40⟩,
         ⟨10485760, 10485760, 10485760, 80⟩,
         ⟨20971520, 5242880, 5242880, 100⟩] 26214400 false) := by
  have hdd : ∀ offset count : Nat,
      (dd_read file offset count).length = min count (26214400 - offset) := by
    intro offset count
    simp [dd_read, hfile]
  simp [kubectl_chunked_cp, chunkedLoop, hdd, Nat.min_def]

/-- Witness for C1 at a concrete 25 MiB remote file. -/
theorem c1_chunked_three_reads_progress_witness :
    kubectl_chunked_cp (.ok 26214400) (List.replicate 26214400 0) 10485760 4 =
      some (.done
        [⟨0, 10485760, 10485760, 40⟩,
         ⟨10485760, 10485760, 10485760, 80⟩,
         ⟨20971520, 5242880, 5242880, 100⟩] 26214400 false) :=
  c1_chunked_three_reads_progress (List.replicate 26214400 0) (List.length_replicate 26214400 0)

/-- Once the offset has reached the true end of a remote file that is
shorter than the probed size, every further iteration reads zero bytes and
leaves the offset unchanged: the loop never finishes, whatever bound on the
number of iterations we observe.  (Probed size 3, actual file 2 bytes,
chunk size 2.) -/
theorem chunkedLoop_stuck (fuel : Nat) : ∀ acc : List ChunkRead,
    chunkedLoop [0, 0] 3 2 fuel 2 acc = none := by
  induction fuel with
  | zero => intro acc; simp [chunkedLoop]
  | succ n ih => intro acc; simp [chunkedLoop, dd_read, Nat.min_def, ih]

/-- Claim C4 (code bug): with every remote command succeeding but the remote
file shorter than the probed size (probed 3 bytes, actual 2 bytes, chunk
size 2 — a truncated last read), `kubectl_chunked_cp` does NOT terminate:
after the truncated read the offset stops advancing and the loop repeats
zero-byte reads forever, so the size-verification code that would print the
mismatch warning is unreachable.  The run is `none` for every iteration
bound. -/
theorem c4_truncated_file_never_terminates (fuel : Nat) :
    kubectl_chunked_cp (.ok 3) [0, 0] 2 fuel = none := by
  cases fuel with
  | zero => simp [kubectl_chunked_cp, chunkedLoop]
  | succ n => simp [kubectl_chunked_cp, chunkedLoop, dd_read, Nat.min_def, chunkedLoop_stuck n]

/-- Claim C7 counterexample: a file-copy failure whose underlying command
exited with code 7 makes the chunked copy run `sys.exit(1)`, not
`sys.exit(7)` — the underlying exit code is not propagated on copy
failure. -/
theorem c7_counterexample_copy_exit_code :
    kubectl_chunked_cp (.error 7) [] 1 1 = some (.exited 1)
    ∧ kubectl_chunked_cp (.error 7) [] 1 1 ≠ some (.exited 7) := by
  decide

/-- Claim C7 (amended): the process exits 0 on success; with the underlying
control-plane command's exit code when the launch (exec or debug-container
creation) fails; and with code 1 when the file copy fails, on usage errors,
on a missing collaborator script (remote.sh), or on an unparseable
structured pod description. -/
theorem c7_amended_exit_codes :
    (∀ rc : Int, rc ≠ 0 → launch_exit rc = some rc)
    ∧ launch_exit 0 = none
    ∧ (∀ (rc : Int) (file : List Nat) (chunkSize fuel : Nat),
        kubectl_chunked_cp (.error rc) file chunkSize fuel = some (.exited 1))
    ∧ load_remote_script none = .error 1
    ∧ usage_exit none none = some 1
    ∧ parse_pod_data none = .error 1 := by
  refine ⟨?_, by simp [launch_exit], fun rc file cs fuel => rfl, rfl, by simp [usage_exit], rfl⟩
  intro rc h
  simp [launch_exit, h]

/-- Witness for C7 (amended) at concrete inputs. -/
theorem c7_amended_exit_codes_witness :
    launch_exit 7 = some 7 ∧ kubectl_chunked_cp (.error 7) [] 1 1 = some (.exited 1) :=
  ⟨c7_amended_exit_codes.1 7 (by decide), c7_amended_exit_codes.2.2.1 7 [] 1 1⟩
